import Mathlib

/-!
# Verification of the vauth token/session lifecycle core

Shallow embedding of the vauth repository's token and session lifecycle
logic (src/models/Token.js, src/models/User.js (FirebaseTokenManager),
src/models/Session.js, the user/admin routes and the cleanup middleware),
together with theorems settling the frozen specification claims.

Conventions:
* JavaScript `Date` values are modelled as `Nat` milliseconds since epoch.
* The Firebase `tokens` subtree / MongoDB `sessions` collection are
  modelled as a `List` of records, in snapshot iteration order.
* The SHA-512 hex digest (Node's `crypto`, external to the repository) is
  a parameter `sha : String → String`; the repository-side computation
  `device_id + plain_token` fed to it is `tokenHashInput`.
* A potentially unreachable backing store is `Except Unit (List Token)`:
  `.error ()` models a rejected Firebase promise.
-/

namespace VAuth

/-- Token status enum from src/models/Token.js (`ACTIVE`, `USED`, `EXPIRED`). -/
inductive TokenStatus
  | ACTIVE
  | USED
  | EXPIRED
deriving DecidableEq, Repr

/-- Session status enum from src/models/Session.js
(`ACTIVE`, `FORCED_LOGOUT`, `EXPIRED`). -/
inductive SessionStatus
  | ACTIVE
  | FORCED_LOGOUT
  | EXPIRED
deriving DecidableEq, Repr

/-- A token record as stored under the Firebase `tokens` ref
(FirebaseTokenManager.createToken).  `id` is the Firebase push key. -/
structure Token where
  id : String
  device_id : String
  token_hash : String
  status : TokenStatus
  created_at : Nat
  expires_at : Nat
  used_at : Option Nat
deriving DecidableEq, Repr

/-- A session document from src/models/Session.js. -/
structure Session where
  id : String
  username : String
  device_id : String
  ip : String
  started_at : Nat
  expires_at : Nat
  status : SessionStatus
deriving DecidableEq, Repr

/-- The string hashed by `generateTokenHash`: the JavaScript concatenation
`device_id + plain_token` (src/models/Token.js line 44 and
src/models/User.js line 177). -/
def tokenHashInput (device_id plain_token : String) : String :=
  device_id ++ plain_token

/-- `generateTokenHash(device_id, plain_token)`:
`crypto.createHash('sha512').update(device_id + plain_token).digest('hex')`,
with the external SHA-512 hex digest abstracted as `sha`. -/
def generateTokenHash (sha : String → String) (device_id plain_token : String) :
    String :=
  sha (tokenHashInput device_id plain_token)

/-- The fixed alphabet of `generateRandomToken`
(src/models/Token.js line 49, src/models/User.js line 182). -/
def tokenChars : String := "ABCDEFGHIJKLMNOPQRSTUVWXYZ0123456789"

/-- `generateRandomToken()`: six iterations of
`chars.charAt(Math.floor(Math.random() * chars.length))`.  The stream of
values `Math.floor(Math.random() * 36)` produced by the (non-cryptographic)
`Math.random` PRNG is the parameter `rand`. -/
def generateRandomToken (rand : Nat → Fin 36) : String :=
  String.mk ((List.range 6).map (fun i => tokenChars.data.getD (rand i) 'A'))

/-- Failure reasons returned by `FirebaseTokenManager.verifyToken`. -/
inductive VerifyReason
  | TOKEN_NOT_FOUND
  | TOKEN_INACTIVE
  | TOKEN_EXPIRED
  | VERIFICATION_ERROR
deriving DecidableEq, Repr

/-- Result of `verifyToken`: `{valid:true, token}` or `{valid:false, reason}`. -/
inductive VerifyOutcome
  | valid (t : Token)
  | invalid (reason : VerifyReason)
deriving DecidableEq, Repr

/-- Whether a verify outcome is the `valid:true` case. -/
def VerifyOutcome.isValid : VerifyOutcome → Bool
  | .valid _ => true
  | .invalid _ => false

/-- `tokensRef.child(id).update({status})`: unconditional merge write of the
status field on the child with the given key. -/
def setStatusById (store : List Token) (id : String) (st : TokenStatus) :
    List Token :=
  store.map (fun t => if t.id = id then { t with status := st } else t)

/-- `tokensRef.child(id).update({status:'USED', used_at})`: the consuming
write of `verifyToken`. -/
def markUsedById (store : List Token) (id : String) (now : Nat) : List Token :=
  store.map (fun t =>
    if t.id = id then { t with status := TokenStatus.USED, used_at := some now }
    else t)

/-- The read-and-decide phase of `FirebaseTokenManager.verifyToken`
(src/models/User.js lines 252-297): hash the input, query the snapshot of
children whose `token_hash` equals it, run the `snapshot.forEach` scan
(each iteration overwrites `token`, nulling it on a device mismatch, so the
scan result is determined by the last matching child), then check status
and expiry on the in-memory snapshot.  Everything up to but excluding the
Firebase `update` write. -/
inductive VerifyDecision
  | notFound
  | inactive
  | markExpired (id : String)
  | markUsed (id : String) (t : Token)
deriving DecidableEq, Repr

/-- The scan over the `equalTo(token_hash)` snapshot plus the status and
expiry checks, producing the decision of which write (if any) to issue. -/
def verifyDecide (sha : String → String) (store : List Token)
    (device_id plain_token : String) (now : Nat) : VerifyDecision :=
  let h := generateTokenHash sha device_id plain_token
  let hits := store.filter (fun t => t.token_hash == h)
  match hits.getLast? with
  | none => VerifyDecision.notFound
  | some t =>
    if t.device_id ≠ device_id then VerifyDecision.notFound
    else if t.status ≠ TokenStatus.ACTIVE then VerifyDecision.inactive
    else if t.expires_at < now then VerifyDecision.markExpired t.id
    else VerifyDecision.markUsed t.id t

/-- The write phase of `verifyToken`: the unconditional Firebase `update`
dictated by the decision, together with the returned result object
(`{...token, status:'USED', used_at}` in the valid case). -/
def applyVerifyDecision (store : List Token) (now : Nat) :
    VerifyDecision → VerifyOutcome × List Token
  | VerifyDecision.notFound =>
    (VerifyOutcome.invalid VerifyReason.TOKEN_NOT_FOUND, store)
  | VerifyDecision.inactive =>
    (VerifyOutcome.invalid VerifyReason.TOKEN_INACTIVE, store)
  | VerifyDecision.markExpired id =>
    (VerifyOutcome.invalid VerifyReason.TOKEN_EXPIRED,
      setStatusById store id TokenStatus.EXPIRED)
  | VerifyDecision.markUsed id t =>
    (VerifyOutcome.valid { t with status := TokenStatus.USED, used_at := some now },
      markUsedById store id now)

/-- `FirebaseTokenManager.verifyToken` run without interference: the read
phase immediately followed by its write phase. -/
def verifyToken (sha : String → String) (store : List Token)
    (device_id plain_token : String) (now : Nat) : VerifyOutcome × List Token :=
  applyVerifyDecision store now (verifyDecide sha store device_id plain_token now)

/-- Two concurrent `verifyToken` calls whose Firebase reads both complete
before either write is issued — an interleaving the `await` boundaries in
src/models/User.js lines 255-303 permit, since the `update` write is
unconditional rather than a compare-and-set. -/
def interleavedDoubleVerify (sha : String → String) (store : List Token)
    (device_id plain_token : String) (now : Nat) :
    VerifyOutcome × VerifyOutcome × List Token :=
  let dA := verifyDecide sha store device_id plain_token now
  let dB := verifyDecide sha store device_id plain_token now
  let rA := applyVerifyDecision store now dA
  let rB := applyVerifyDecision rA.2 now dB
  (rA.1, rB.1, rB.2)

/-- `verifyToken` as actually exposed: the whole body sits in a
`try`/`catch` whose catch branch returns
`{ valid:false, reason:'VERIFICATION_ERROR' }` (src/models/User.js
lines 317-320).  A store that cannot be reached is `.error ()`. -/
def verifyTokenCatch (sha : String → String) (load : Except Unit (List Token))
    (device_id plain_token : String) (now : Nat) :
    VerifyOutcome × Except Unit (List Token) :=
  match load with
  | Except.error e => (VerifyOutcome.invalid VerifyReason.VERIFICATION_ERROR,
      Except.error e)
  | Except.ok store =>
    let r := verifyToken sha store device_id plain_token now
    (r.1, Except.ok r.2)

/-- `calculateTimeRemaining(token)` (src/models/User.js lines 351-364):
0 unless ACTIVE, otherwise remaining whole seconds. -/
def calculateTimeRemaining (t : Token) (now : Nat) : Nat :=
  if t.status ≠ TokenStatus.ACTIVE then 0
  else (t.expires_at - now) / 1000

/-- `FirebaseTokenManager.getAllTokens`: reads the whole snapshot; the
catch branch turns any store failure into an empty array
(src/models/User.js lines 344-347). -/
def getAllTokens (load : Except Unit (List Token)) : List Token :=
  match load with
  | Except.error _ => []
  | Except.ok store => store

/-- The overridden `Token.find(query)` static (src/models/Token.js
lines 68-85): fetches all tokens (empty on failure) and filters by the
optional status field; its own catch also returns `[]`. -/
def tokenFind (load : Except Unit (List Token)) (queryStatus : Option TokenStatus) :
    List Token :=
  let tokens := getAllTokens load
  match queryStatus with
  | some st => tokens.filter (fun t => t.status == st)
  | none => tokens

/-- `FirebaseTokenManager.deleteToken(tokenId)`
(src/models/User.js lines 367-376): `tokensRef.child(tokenId).remove()`
resolves whether or not the child exists, so the function returns `true`
whenever the store call succeeds; the catch branch returns `false`. -/
def deleteToken (load : Except Unit (List Token)) (tokenId : String) :
    Bool × Except Unit (List Token) :=
  match load with
  | Except.error e => (false, Except.error e)
  | Except.ok store => (true, Except.ok (store.filter (fun t => ¬ t.id = tokenId)))

/-- `FirebaseTokenManager.cleanupExpiredTokens` (src/models/User.js
lines 379-412): queries ACTIVE tokens, flips those past `expires_at` to
EXPIRED, returns the count; the catch branch returns 0 with no effect. -/
def cleanupExpiredTokens (load : Except Unit (List Token)) (now : Nat) :
    Nat × Except Unit (List Token) :=
  match load with
  | Except.error e => (0, Except.error e)
  | Except.ok store =>
    (store.countP (fun t => t.status == TokenStatus.ACTIVE && decide (t.expires_at < now)),
      Except.ok (store.map (fun t =>
        if t.status = TokenStatus.ACTIVE ∧ t.expires_at < now
        then { t with status := TokenStatus.EXPIRED } else t)))

/-- The `setTimeout` callback registered by `setupTokenExpiry`
(src/models/User.js lines 236-245): once the TTL elapses it runs
`tokensRef.child(tokenId).update({status:'EXPIRED'})` unconditionally,
whatever the token's current status. -/
def autoExpireToken (store : List Token) (tokenId : String) : List Token :=
  setStatusById store tokenId TokenStatus.EXPIRED

/-- `FirebaseTokenManager.createToken` (src/models/User.js lines 191-229):
generates the plaintext, hashes it, pushes an ACTIVE token with
`expires_at = now + expirySeconds*1000`; its catch branch RETHROWS the
store error (`throw error`), so failures propagate. -/
def createToken (sha : String → String) (load : Except Unit (List Token))
    (device_id : String) (expirySeconds : Nat) (rand : Nat → Fin 36)
    (newId : String) (now : Nat) :
    Except Unit ((Token × String) × List Token) :=
  match load with
  | Except.error e => Except.error e
  | Except.ok store =>
    let plain_token := generateRandomToken rand
    let token_hash := generateTokenHash sha device_id plain_token
    let t : Token :=
      { id := newId, device_id := device_id, token_hash := token_hash,
        status := TokenStatus.ACTIVE, created_at := now,
        expires_at := now + expirySeconds * 1000, used_at := none }
    Except.ok ((t, plain_token), store ++ [t])

/-- The failure branch of `POST /api/user/verify-token`
(src/server.js route handler, lines 296-308): the outward message starts
as 'Invalid token' and is overridden for the expired and not-found
reasons. -/
def verifyFailureMessage (r : VerifyReason) : String :=
  match r with
  | VerifyReason.TOKEN_EXPIRED => "Token expired"
  | VerifyReason.TOKEN_NOT_FOUND => "Token invalid"
  | _ => "Invalid token"

/-- The HTTP response of a failing verify-token request. -/
structure FailResponse where
  httpStatus : Nat
  success : Bool
  message : String
deriving DecidableEq, Repr

/-- The `token-verification` event `trackTokenFailure` emits to the admin
room: it carries the precise internal reason. -/
structure TokenFailureEvent where
  device_id : String
  success : Bool
  reason : VerifyReason
deriving DecidableEq, Repr

/-- The failure path of the verify-token route: builds the 401 response
with the mapped message and emits the event with the precise reason. -/
def verifyTokenFailureHandler (device_id : String) (r : VerifyReason) :
    FailResponse × TokenFailureEvent :=
  ({ httpStatus := 401, success := false, message := verifyFailureMessage r },
    { device_id := device_id, success := false, reason := r })

/-! ## Session store (src/models/Session.js and the user/admin routes) -/

/-- `Session.createSession(username, device_id, ip, expiryMinutes)`
(src/models/Session.js lines 42-57): computes
`expires_at = Date.now() + expiryMinutes*60*1000`, runs
`updateMany({username, status:'ACTIVE'}, {$set:{status:'EXPIRED'}})`, then
creates the new document with default status ACTIVE and default
`started_at = Date.now()`.  `newId` is the id MongoDB assigns. -/
def createSession (store : List Session) (username device_id ip : String)
    (expiryMinutes : Nat) (now : Nat) (newId : String) :
    Session × List Session :=
  let expires_at := now + expiryMinutes * 60 * 1000
  let demoted := store.map (fun s =>
    if s.username = username ∧ s.status = SessionStatus.ACTIVE
    then { s with status := SessionStatus.EXPIRED } else s)
  let ns : Session :=
    { id := newId, username := username, device_id := device_id, ip := ip,
      started_at := now, expires_at := expires_at,
      status := SessionStatus.ACTIVE }
  (ns, demoted ++ [ns])

/-- `findById(sessionId)`: the document with the given id (ids are
MongoDB primary keys; the first occurrence in our list model). -/
def findSessionById (store : List Session) (id : String) : Option Session :=
  (store.filter (fun s => s.id == id)).head?

/-- `session.save()` after assigning `session.status = st`: persists the
new status on the document with that id. -/
def saveSessionStatus (store : List Session) (id : String) (st : SessionStatus) :
    List Session :=
  store.map (fun s => if s.id = id then { s with status := st } else s)

/-- Failure reasons of `Session.validateSession`. -/
inductive SessionReason
  | SESSION_NOT_FOUND
  | SESSION_INACTIVE
  | SESSION_EXPIRED
deriving DecidableEq, Repr

/-- Result of `Session.validateSession`. -/
inductive ValidateOutcome
  | valid (s : Session)
  | invalid (r : SessionReason)
deriving DecidableEq, Repr

/-- `Session.validateSession(sessionId)` (src/models/Session.js
lines 60-78): not-found / inactive / lazy-expire / valid. -/
def validateSession (store : List Session) (id : String) (now : Nat) :
    ValidateOutcome × List Session :=
  match findSessionById store id with
  | none => (ValidateOutcome.invalid SessionReason.SESSION_NOT_FOUND, store)
  | some s =>
    if s.status ≠ SessionStatus.ACTIVE
    then (ValidateOutcome.invalid SessionReason.SESSION_INACTIVE, store)
    else if s.expires_at < now
    then (ValidateOutcome.invalid SessionReason.SESSION_EXPIRED,
      saveSessionStatus store id SessionStatus.EXPIRED)
    else (ValidateOutcome.valid s, store)

/-- `Session.forceLogout(sessionId)` (src/models/Session.js lines 81-89):
flips an ACTIVE session to FORCED_LOGOUT, otherwise a no-op returning
false. -/
def forceLogout (store : List Session) (id : String) : Bool × List Session :=
  match findSessionById store id with
  | some s =>
    if s.status = SessionStatus.ACTIVE
    then (true, saveSessionStatus store id SessionStatus.FORCED_LOGOUT)
    else (false, store)
  | none => (false, store)

/-- `Session.cleanupExpiredSessions()` (src/models/Session.js
lines 92-103): bulk update of ACTIVE sessions past `expires_at`. -/
def cleanupExpiredSessions (store : List Session) (now : Nat) :
    Nat × List Session :=
  (store.countP (fun s => s.status == SessionStatus.ACTIVE && decide (s.expires_at < now)),
    store.map (fun s =>
      if s.status = SessionStatus.ACTIVE ∧ s.expires_at < now
      then { s with status := SessionStatus.EXPIRED } else s))

/-- The session mutation of `POST /api/user/logout` (src/server.js
user-routes, lines 357-378): `findByIdAndUpdate(sessionId,
{status:'EXPIRED'})` — an unconditional status write, whatever the
session's current status. -/
def logoutSession (store : List Session) (id : String) : List Session :=
  saveSessionStatus store id SessionStatus.EXPIRED

/-- Insertion step of sorting sessions by `started_at` descending. -/
def insertByStartedDesc (s : Session) : List Session → List Session
  | [] => [s]
  | t :: ts =>
    if t.started_at ≤ s.started_at then s :: t :: ts
    else t :: insertByStartedDesc s ts

/-- Sort sessions by `started_at` descending (`.sort({started_at:-1})`). -/
def sortByStartedDesc : List Session → List Session
  | [] => []
  | s :: ss => insertByStartedDesc s (sortByStartedDesc ss)

/-- `Session.getActiveSessions()` (src/models/Session.js lines 106-111):
`find({status:'ACTIVE', expires_at:{$gt: now}}).sort({started_at:-1})`.
A pure query: the returned pair carries the untouched store alongside the
result list. -/
def getActiveSessions (store : List Session) (now : Nat) :
    List Session × List Session :=
  (sortByStartedDesc (store.filter (fun s =>
    s.status == SessionStatus.ACTIVE && decide (now < s.expires_at))), store)

/-! ## Sample fixtures used by witnesses and counterexamples -/

/-- Stand-in instantiation of the abstract SHA-512 parameter for concrete
evaluations (the identity on the hash input). -/
def shaId : String → String := fun s => s

/-- A live ACTIVE token for device `dev1` whose hash (under `shaId`)
matches the plaintext `SECRET`. -/
def tokActive : Token :=
  { id := "k1", device_id := "dev1", token_hash := "dev1SECRET",
    status := TokenStatus.ACTIVE, created_at := 0, expires_at := 1000,
    used_at := none }

/-- An already consumed token for device `dev2`. -/
def tokUsed : Token :=
  { id := "k2", device_id := "dev2", token_hash := "dev2OTHER1",
    status := TokenStatus.USED, created_at := 0, expires_at := 1000,
    used_at := some 100 }

/-- An ACTIVE session. -/
def sesActive : Session :=
  { id := "s1", username := "alice", device_id := "dev1", ip := "10.0.0.1",
    started_at := 100, expires_at := 1000, status := SessionStatus.ACTIVE }

/-- A session an admin force-logged-out. -/
def sesForced : Session :=
  { id := "s2", username := "bob", device_id := "dev2", ip := "10.0.0.2",
    started_at := 50, expires_at := 1000, status := SessionStatus.FORCED_LOGOUT }

/-! ## Helper lemmas -/

/-- The last element of a list, when it exists, is a member. -/
theorem mem_of_getLast?_eq {α : Type} {l : List α} {a : α}
    (h : l.getLast? = some a) : a ∈ l := by
  obtain ⟨hne, rfl⟩ := List.mem_getLast?_eq_getLast (show a ∈ l.getLast? by simp [h])
  exact List.getLast_mem hne

/-- The head of a list, when it exists, is a member. -/
theorem mem_of_head?_eq {α : Type} {l : List α} {a : α}
    (h : l.head? = some a) : a ∈ l := by
  cases l <;> simp_all

/-- Filtering commutes with a map that does not disturb the predicate. -/
theorem filter_map_pred_inv {α : Type} (g : α → α) (p : α → Bool)
    (hp : ∀ x, p (g x) = p x) :
    ∀ l : List α, (l.map g).filter p = (l.filter p).map g := by
  intro l
  induction l with
  | nil => rfl
  | cons x xs ih =>
    simp only [List.map_cons, List.filter_cons, hp x]
    cases p x <;> simp [ih]

/-! ## Claim theorems -/

/-- C1: the claim says at most one of any number of concurrent `verify`
attempts on one token returns Valid, because the check-then-transition from
ACTIVE to USED is atomic per token.  The code's check and transition are
separate awaited Firebase operations and the consuming write is an
unconditional `update`, not a conditional one: in the interleaving where
both reads complete before either write, both concurrent attempts return
Valid on the same ACTIVE token. -/
theorem C1_concurrent_double_spend :
    ((interleavedDoubleVerify shaId [tokActive] "dev1" "SECRET" 500).1).isValid = true
    ∧ ((interleavedDoubleVerify shaId [tokActive] "dev1" "SECRET" 500).2.1).isValid = true := by
  constructor <;> rfl

/-- C2: when `verifyToken` finds an ACTIVE token matching the digest and
the same deviceId, an `expires_at` earlier than now makes it persist
EXPIRED and return the Expired reason; otherwise it persists USED with
`used_at` set and returns Valid, after which a second sequential verify
with the same secret is non-valid. -/
theorem C2_verify_consumes_once (sha : String → String) (store : List Token)
    (d p : String) (now : Nat) (t : Token)
    (hfind : (store.filter
      (fun x => x.token_hash == generateTokenHash sha d p)).getLast? = some t)
    (hdev : t.device_id = d) (hact : t.status = TokenStatus.ACTIVE) :
    (t.expires_at < now →
      verifyToken sha store d p now =
        (VerifyOutcome.invalid VerifyReason.TOKEN_EXPIRED,
          setStatusById store t.id TokenStatus.EXPIRED))
    ∧ (¬ t.expires_at < now →
      verifyToken sha store d p now =
        (VerifyOutcome.valid
          { t with status := TokenStatus.USED, used_at := some now },
          markUsedById store t.id now)
      ∧ ∀ now₂ : Nat,
        ((verifyToken sha (markUsedById store t.id now) d p now₂).1).isValid
          = false) := by
  have hdec : verifyDecide sha store d p now =
      (if t.expires_at < now then VerifyDecision.markExpired t.id
        else VerifyDecision.markUsed t.id t) := by
    unfold verifyDecide
    simp only [hfind, hdev, hact]
    simp
  constructor
  · intro hlt
    unfold verifyToken
    rw [hdec, if_pos hlt]
    rfl
  · intro hge
    have hval : verifyToken sha store d p now =
        (VerifyOutcome.valid
          { t with status := TokenStatus.USED, used_at := some now },
          markUsedById store t.id now) := by
      unfold verifyToken
      rw [hdec, if_neg hge]
      rfl
    refine ⟨hval, ?_⟩
    intro now₂
    have hpred : ∀ x : Token,
        ((fun y : Token => y.token_hash == generateTokenHash sha d p)
          (if x.id = t.id
            then { x with status := TokenStatus.USED, used_at := some now }
            else x))
        = (fun y : Token => y.token_hash == generateTokenHash sha d p) x := by
      intro x
      by_cases h : x.id = t.id <;> simp [h]
    have hlast : ((markUsedById store t.id now).filter
        (fun y => y.token_hash == generateTokenHash sha d p)).getLast? =
        some { t with status := TokenStatus.USED, used_at := some now } := by
      have hfilter : ((markUsedById store t.id now).filter
          (fun y => y.token_hash == generateTokenHash sha d p)) =
          (store.filter
            (fun y => y.token_hash == generateTokenHash sha d p)).map
            (fun y => if y.id = t.id
              then { y with status := TokenStatus.USED, used_at := some now }
              else y) :=
        filter_map_pred_inv _ _ hpred store
      rw [hfilter, List.getLast?_map, hfind]
      simp
    have hdec₂ : verifyDecide sha (markUsedById store t.id now) d p now₂ =
        VerifyDecision.inactive := by
      unfold verifyDecide
      simp only [hlast, hdev]
      simp
    unfold verifyToken
    rw [hdec₂]
    rfl

/-- Witness for C2 at a concrete input: one live ACTIVE token, verified at
time 500 before its expiry 1000. -/
theorem C2_verify_consumes_once_witness :
    (([tokActive].filter
      (fun x => x.token_hash == generateTokenHash shaId "dev1" "SECRET")).getLast?
        = some tokActive)
    ∧ tokActive.device_id = "dev1"
    ∧ tokActive.status = TokenStatus.ACTIVE
    ∧ ((tokActive.expires_at < 500 →
        verifyToken shaId [tokActive] "dev1" "SECRET" 500 =
          (VerifyOutcome.invalid VerifyReason.TOKEN_EXPIRED,
            setStatusById [tokActive] tokActive.id TokenStatus.EXPIRED))
      ∧ (¬ tokActive.expires_at < 500 →
        verifyToken shaId [tokActive] "dev1" "SECRET" 500 =
          (VerifyOutcome.valid
            { tokActive with status := TokenStatus.USED, used_at := some 500 },
            markUsedById [tokActive] tokActive.id 500)
        ∧ ∀ now₂ : Nat,
          ((verifyToken shaId (markUsedById [tokActive] tokActive.id 500)
            "dev1" "SECRET" now₂).1).isValid = false)) :=
  ⟨by decide, rfl, rfl,
    C2_verify_consumes_once shaId [tokActive] "dev1" "SECRET" 500 tokActive
      (by decide) rfl rfl⟩

/-- After any `createSession`, exactly one stored session of the principal
is ACTIVE: the demotion pass leaves none and the appended document is the
only one. -/
theorem countP_active_after_createSession (store : List Session)
    (u d ip : String) (m now : Nat) (nid : String) :
    ((createSession store u d ip m now nid).2).countP
      (fun s => s.username == u && s.status == SessionStatus.ACTIVE) = 1 := by
  simp only [createSession]
  rw [List.countP_append]
  have h0 : (store.map (fun s =>
      if s.username = u ∧ s.status = SessionStatus.ACTIVE
      then { s with status := SessionStatus.EXPIRED } else s)).countP
      (fun s => s.username == u && s.status == SessionStatus.ACTIVE) = 0 := by
    rw [List.countP_eq_zero]
    intro a ha
    obtain ⟨b, hb, rfl⟩ := List.mem_map.mp ha
    by_cases h : b.username = u ∧ b.status = SessionStatus.ACTIVE
    · simp [h]
    · by_cases hu : b.username = u
      · have hA : ¬ b.status = SessionStatus.ACTIVE := fun hA => h ⟨hu, hA⟩
        simp [h, hA]
      · simp [h, hu]
  rw [h0]
  simp [List.countP_cons]

/-- The demotion pass of `createSession` writes EXPIRED on every ACTIVE
session of the principal, and the result remains stored. -/
theorem mem_expired_createSession (store : List Session)
    (u d ip : String) (m now : Nat) (nid : String) (s : Session)
    (hs : s ∈ store) (hu : s.username = u)
    (hA : s.status = SessionStatus.ACTIVE) :
    { s with status := SessionStatus.EXPIRED } ∈
      (createSession store u d ip m now nid).2 := by
  simp only [createSession]
  refine List.mem_append_left _ ?_
  have heq : (fun x : Session =>
      if x.username = u ∧ x.status = SessionStatus.ACTIVE
      then { x with status := SessionStatus.EXPIRED } else x) s
      = { s with status := SessionStatus.EXPIRED } := by
    simp [hu, hA]
  exact heq ▸ List.mem_map_of_mem _ hs

/-- C3: `createSession` first demotes every ACTIVE session of the
principal to EXPIRED and then appends one new ACTIVE session with
`expires_at = now + expiryMinutes*60*1000`; after two sequential calls for
the same principal the first created session is stored as EXPIRED and
exactly one session of the principal is ACTIVE. -/
theorem C3_single_active_session (store : List Session)
    (u d₁ ip₁ d₂ ip₂ : String) (m₁ m₂ now₁ now₂ : Nat) (id₁ id₂ : String) :
    (createSession store u d₁ ip₁ m₁ now₁ id₁).1.status = SessionStatus.ACTIVE
    ∧ (createSession store u d₁ ip₁ m₁ now₁ id₁).1.expires_at
        = now₁ + m₁ * 60 * 1000
    ∧ (∀ s ∈ store, s.username = u → s.status = SessionStatus.ACTIVE →
        { s with status := SessionStatus.EXPIRED } ∈
          (createSession store u d₁ ip₁ m₁ now₁ id₁).2)
    ∧ ((createSession store u d₁ ip₁ m₁ now₁ id₁).2.countP
        (fun s => s.username == u && s.status == SessionStatus.ACTIVE) = 1)
    ∧ ({ (createSession store u d₁ ip₁ m₁ now₁ id₁).1 with
          status := SessionStatus.EXPIRED } ∈
        (createSession ((createSession store u d₁ ip₁ m₁ now₁ id₁).2)
          u d₂ ip₂ m₂ now₂ id₂).2)
    ∧ ((createSession ((createSession store u d₁ ip₁ m₁ now₁ id₁).2)
          u d₂ ip₂ m₂ now₂ id₂).2.countP
        (fun s => s.username == u && s.status == SessionStatus.ACTIVE) = 1) := by
  refine ⟨rfl, rfl, ?_, countP_active_after_createSession store u d₁ ip₁ m₁ now₁ id₁,
    ?_, countP_active_after_createSession _ u d₂ ip₂ m₂ now₂ id₂⟩
  · intro s hs hu hA
    exact mem_expired_createSession store u d₁ ip₁ m₁ now₁ id₁ s hs hu hA
  · refine mem_expired_createSession _ u d₂ ip₂ m₂ now₂ id₂ _ ?_ rfl rfl
    simp [createSession]

/-- Witness for C3 at a concrete input: the store holds one ACTIVE session
of alice; alice opens two more sessions in sequence. -/
theorem C3_single_active_session_witness :
    (createSession [sesActive] "alice" "dev1" "10.0.0.9" 10 2000 "s10").1.status
        = SessionStatus.ACTIVE
    ∧ (createSession [sesActive] "alice" "dev1" "10.0.0.9" 10 2000 "s10").1.expires_at
        = 2000 + 10 * 60 * 1000
    ∧ (∀ s ∈ [sesActive], s.username = "alice" → s.status = SessionStatus.ACTIVE →
        { s with status := SessionStatus.EXPIRED } ∈
          (createSession [sesActive] "alice" "dev1" "10.0.0.9" 10 2000 "s10").2)
    ∧ ((createSession [sesActive] "alice" "dev1" "10.0.0.9" 10 2000 "s10").2.countP
        (fun s => s.username == "alice" && s.status == SessionStatus.ACTIVE) = 1)
    ∧ ({ (createSession [sesActive] "alice" "dev1" "10.0.0.9" 10 2000 "s10").1 with
          status := SessionStatus.EXPIRED } ∈
        (createSession
          ((createSession [sesActive] "alice" "dev1" "10.0.0.9" 10 2000 "s10").2)
          "alice" "dev1" "10.0.0.9" 10 3000 "s11").2)
    ∧ ((createSession
          ((createSession [sesActive] "alice" "dev1" "10.0.0.9" 10 2000 "s10").2)
          "alice" "dev1" "10.0.0.9" 10 3000 "s11").2.countP
        (fun s => s.username == "alice" && s.status == SessionStatus.ACTIVE) = 1) :=
  C3_single_active_session [sesActive] "alice" "dev1" "10.0.0.9" "dev1" "10.0.0.9"
    10 10 2000 3000 "s10" "s11"

/-- A token whose id differs from the written key passes through
`setStatusById` untouched. -/
theorem mem_setStatusById_of_ne {store : List Token} {t : Token}
    (hmem : t ∈ store) (i : String) (st : TokenStatus) (hne : ¬ t.id = i) :
    t ∈ setStatusById store i st := by
  have heq : (fun x : Token => if x.id = i then { x with status := st } else x) t
      = t := by simp [hne]
  exact heq ▸ List.mem_map_of_mem _ hmem

/-- A token whose id differs from the written key passes through
`markUsedById` untouched. -/
theorem mem_markUsedById_of_ne {store : List Token} {t : Token}
    (hmem : t ∈ store) (i : String) (now : Nat) (hne : ¬ t.id = i) :
    t ∈ markUsedById store i now := by
  have heq : (fun x : Token =>
      if x.id = i
      then { x with status := TokenStatus.USED, used_at := some now } else x) t
      = t := by simp [hne]
  exact heq ▸ List.mem_map_of_mem _ hmem

/-- A session whose id differs from the saved one passes through
`saveSessionStatus` untouched. -/
theorem mem_saveSessionStatus_of_ne {store : List Session} {s : Session}
    (hmem : s ∈ store) (i : String) (st : SessionStatus) (hne : ¬ s.id = i) :
    s ∈ saveSessionStatus store i st := by
  have heq : (fun x : Session => if x.id = i then { x with status := st } else x) s
      = s := by simp [hne]
  exact heq ▸ List.mem_map_of_mem _ hmem

/-- The store after `verifyToken` is either untouched, or written through
exactly one of the two updates, keyed on the id of a stored ACTIVE token. -/
theorem verifyToken_store_shape (sha : String → String) (store : List Token)
    (d p : String) (now : Nat) :
    (verifyToken sha store d p now).2 = store
    ∨ (∃ u, u ∈ store ∧ u.status = TokenStatus.ACTIVE ∧
        (verifyToken sha store d p now).2 = setStatusById store u.id TokenStatus.EXPIRED)
    ∨ (∃ u, u ∈ store ∧ u.status = TokenStatus.ACTIVE ∧
        (verifyToken sha store d p now).2 = markUsedById store u.id now) := by
  cases hlast : (store.filter
      (fun x => x.token_hash == generateTokenHash sha d p)).getLast? with
  | none =>
    left
    unfold verifyToken verifyDecide
    simp only [hlast]
    rfl
  | some u =>
    have humem : u ∈ store := List.mem_of_mem_filter (mem_of_getLast?_eq hlast)
    by_cases hdev : u.device_id = d
    · by_cases hact : u.status = TokenStatus.ACTIVE
      · by_cases hexp : u.expires_at < now
        · refine Or.inr (Or.inl ⟨u, humem, hact, ?_⟩)
          unfold verifyToken verifyDecide
          simp only [hlast]
          simp [hdev, hact, hexp, applyVerifyDecision]
        · refine Or.inr (Or.inr ⟨u, humem, hact, ?_⟩)
          unfold verifyToken verifyDecide
          simp only [hlast]
          simp [hdev, hact, hexp, applyVerifyDecision]
      · left
        unfold verifyToken verifyDecide
        simp only [hlast]
        simp [hdev, hact, applyVerifyDecision]
    · left
      unfold verifyToken verifyDecide
      simp only [hlast]
      simp [hdev, applyVerifyDecision]

/-- C4 counterexample: the claim says no operation ever changes a
terminal status.  But `POST /api/user/logout` writes EXPIRED
unconditionally, flipping a FORCED_LOGOUT session to EXPIRED, and the
`setupTokenExpiry` timer callback writes EXPIRED unconditionally, flipping
a USED token to EXPIRED. -/
theorem C4_counterexample :
    sesForced.status = SessionStatus.FORCED_LOGOUT
    ∧ (logoutSession [sesForced] "s2").map Session.status = [SessionStatus.EXPIRED]
    ∧ tokUsed.status = TokenStatus.USED
    ∧ (autoExpireToken [tokUsed] "k2").map Token.status = [TokenStatus.EXPIRED] := by
  refine ⟨rfl, ?_, rfl, ?_⟩ <;> rfl

/-- C4 amended: terminal statuses are preserved by `verifyToken`, the
token sweep, `validateSession`, `forceLogout` and the session sweep (the
operations that guard their writes on the current status); the unguarded
writes — the `setupTokenExpiry` timer and the user-logout route — are the
exceptions exhibited by the counterexample. -/
theorem C4_terminal_preserved :
    (∀ (sha : String → String) (store : List Token) (d p : String) (now : Nat)
      (t : Token), (store.map Token.id).Nodup → t ∈ store →
      (t.status = TokenStatus.USED ∨ t.status = TokenStatus.EXPIRED) →
      t ∈ (verifyToken sha store d p now).2)
    ∧ (∀ (store : List Token) (now : Nat) (t : Token), t ∈ store →
      (t.status = TokenStatus.USED ∨ t.status = TokenStatus.EXPIRED) →
      t ∈ getAllTokens (cleanupExpiredTokens (Except.ok store) now).2)
    ∧ (∀ (store : List Session) (id : String) (now : Nat) (s : Session),
      (store.map Session.id).Nodup → s ∈ store →
      (s.status = SessionStatus.FORCED_LOGOUT ∨ s.status = SessionStatus.EXPIRED) →
      s ∈ (validateSession store id now).2)
    ∧ (∀ (store : List Session) (id : String) (s : Session),
      (store.map Session.id).Nodup → s ∈ store →
      (s.status = SessionStatus.FORCED_LOGOUT ∨ s.status = SessionStatus.EXPIRED) →
      s ∈ (forceLogout store id).2)
    ∧ (∀ (store : List Session) (now : Nat) (s : Session), s ∈ store →
      (s.status = SessionStatus.FORCED_LOGOUT ∨ s.status = SessionStatus.EXPIRED) →
      s ∈ (cleanupExpiredSessions store now).2) := by
  refine ⟨?_, ?_, ?_, ?_, ?_⟩
  · intro sha store d p now t hnd hmem hterm
    have hne : ∀ u : Token, u ∈ store → u.status = TokenStatus.ACTIVE →
        ¬ t.id = u.id := by
      intro u humem hact hid
      have : t = u := List.inj_on_of_nodup_map hnd hmem humem hid
      subst this
      rcases hterm with h | h <;> rw [hact] at h <;> exact TokenStatus.noConfusion h
    rcases verifyToken_store_shape sha store d p now with heq
      | ⟨u, humem, hact, heq⟩ | ⟨u, humem, hact, heq⟩
    · rw [heq]; exact hmem
    · rw [heq]; exact mem_setStatusById_of_ne hmem _ _ (hne u humem hact)
    · rw [heq]; exact mem_markUsedById_of_ne hmem _ _ (hne u humem hact)
  · intro store now t hmem hterm
    simp only [cleanupExpiredTokens, getAllTokens]
    have heq : (fun x : Token =>
        if x.status = TokenStatus.ACTIVE ∧ x.expires_at < now
        then { x with status := TokenStatus.EXPIRED } else x) t = t := by
      rcases hterm with h | h <;> simp [h]
    exact heq ▸ List.mem_map_of_mem _ hmem
  · intro store id now s hnd hmem hterm
    have hne : ∀ u : Session, u ∈ store → u.status = SessionStatus.ACTIVE →
        ¬ s.id = u.id := by
      intro u humem hact hid
      have : s = u := List.inj_on_of_nodup_map hnd hmem humem hid
      subst this
      rcases hterm with h | h <;> rw [hact] at h <;> exact SessionStatus.noConfusion h
    unfold validateSession
    cases hfind : findSessionById store id with
    | none => simpa using hmem
    | some s₀ =>
      have hfind' : (store.filter (fun x => x.id == id)).head? = some s₀ := hfind
      have h0mem : s₀ ∈ store := List.mem_of_mem_filter (mem_of_head?_eq hfind')
      have h0id : s₀.id = id := by
        have := (List.mem_filter.mp (mem_of_head?_eq hfind')).2
        simpa using this
      by_cases hact : s₀.status = SessionStatus.ACTIVE
      · by_cases hexp : s₀.expires_at < now
        · simp only [hfind]
          simp only [hact, hexp]
          simp only [ne_eq, not_true_eq_false, if_false, if_true, reduceIte]
          have : s ∈ saveSessionStatus store id SessionStatus.EXPIRED := by
            refine mem_saveSessionStatus_of_ne hmem _ _ ?_
            have hns := hne s₀ h0mem hact
            rw [h0id] at hns
            exact hns
          simpa [hact, hexp] using this
        · simp only [hfind]
          simpa [hact, hexp] using hmem
      · simp only [hfind]
        simpa [hact] using hmem
  · intro store id s hnd hmem hterm
    have hne : ∀ u : Session, u ∈ store → u.status = SessionStatus.ACTIVE →
        ¬ s.id = u.id := by
      intro u humem hact hid
      have : s = u := List.inj_on_of_nodup_map hnd hmem humem hid
      subst this
      rcases hterm with h | h <;> rw [hact] at h <;> exact SessionStatus.noConfusion h
    unfold forceLogout
    cases hfind : findSessionById store id with
    | none => simpa using hmem
    | some s₀ =>
      have hfind' : (store.filter (fun x => x.id == id)).head? = some s₀ := hfind
      have h0mem : s₀ ∈ store := List.mem_of_mem_filter (mem_of_head?_eq hfind')
      have h0id : s₀.id = id := by
        have := (List.mem_filter.mp (mem_of_head?_eq hfind')).2
        simpa using this
      by_cases hact : s₀.status = SessionStatus.ACTIVE
      · simp only [hfind]
        have : s ∈ saveSessionStatus store id SessionStatus.FORCED_LOGOUT := by
          refine mem_saveSessionStatus_of_ne hmem _ _ ?_
          have hns := hne s₀ h0mem hact
          rw [h0id] at hns
          exact hns
        simpa [hact] using this
      · simp only [hfind]
        simpa [hact] using hmem
  · intro store now s hmem hterm
    simp only [cleanupExpiredSessions]
    have heq : (fun x : Session =>
        if x.status = SessionStatus.ACTIVE ∧ x.expires_at < now
        then { x with status := SessionStatus.EXPIRED } else x) s = s := by
      rcases hterm with h | h <;> simp [h]
    exact heq ▸ List.mem_map_of_mem _ hmem

/-- Witness for the amended C4 at concrete inputs: a USED token and a
FORCED_LOGOUT session survive a verify, both sweeps, a validate and a
force-logout untouched. -/
theorem C4_terminal_preserved_witness :
    (([tokActive, tokUsed].map Token.id).Nodup
      ∧ tokUsed ∈ (verifyToken shaId [tokActive, tokUsed] "dev1" "SECRET" 500).2)
    ∧ tokUsed ∈ getAllTokens (cleanupExpiredTokens
        (Except.ok [tokActive, tokUsed]) 5000).2
    ∧ (([sesActive, sesForced].map Session.id).Nodup
      ∧ sesForced ∈ (validateSession [sesActive, sesForced] "s1" 2000).2)
    ∧ sesForced ∈ (forceLogout [sesActive, sesForced] "s1").2
    ∧ sesForced ∈ (cleanupExpiredSessions [sesActive, sesForced] 2000).2 :=
  ⟨⟨by decide, C4_terminal_preserved.1 shaId [tokActive, tokUsed] "dev1" "SECRET"
      500 tokUsed (by decide) (by decide) (Or.inl rfl)⟩,
    C4_terminal_preserved.2.1 [tokActive, tokUsed] 5000 tokUsed
      (by decide) (Or.inl rfl),
    ⟨by decide, C4_terminal_preserved.2.2.1 [sesActive, sesForced] "s1" 2000
      sesForced (by decide) (by decide) (Or.inl rfl)⟩,
    C4_terminal_preserved.2.2.2.1 [sesActive, sesForced] "s1" sesForced
      (by decide) (by decide) (Or.inl rfl),
    C4_terminal_preserved.2.2.2.2 [sesActive, sesForced] 2000 sesForced
      (by decide) (Or.inl rfl)⟩

/-- C5 counterexample: the claim says every failing verify-token run shows
the caller one identical generic message.  Two failing runs — one on an
expired token, one on an unknown digest — produce different caller-visible
messages ('Token expired' vs 'Token invalid'). -/
theorem C5_counterexample :
    (verifyToken shaId [tokActive] "dev1" "SECRET" 2000).1
      = VerifyOutcome.invalid VerifyReason.TOKEN_EXPIRED
    ∧ (verifyToken shaId [] "dev1" "SECRET" 2000).1
      = VerifyOutcome.invalid VerifyReason.TOKEN_NOT_FOUND
    ∧ ¬ ((verifyTokenFailureHandler "dev1" VerifyReason.TOKEN_EXPIRED).1.message
      = (verifyTokenFailureHandler "dev1" VerifyReason.TOKEN_NOT_FOUND).1.message) := by
  refine ⟨rfl, rfl, by decide⟩

/-- C5 amended: every failing verify-token request gets HTTP 401 with
`success:false`, but the message depends on the internal reason — 'Token
expired' for TOKEN_EXPIRED, 'Token invalid' for TOKEN_NOT_FOUND, and
'Invalid token' for TOKEN_INACTIVE and VERIFICATION_ERROR (only the latter
two collapse) — while the admin event carries the precise reason. -/
theorem C5_failure_channel (d : String) (r : VerifyReason) :
    (verifyTokenFailureHandler d r).1.httpStatus = 401
    ∧ (verifyTokenFailureHandler d r).1.success = false
    ∧ (verifyTokenFailureHandler d r).1.message = verifyFailureMessage r
    ∧ (verifyTokenFailureHandler d r).2.reason = r
    ∧ verifyFailureMessage VerifyReason.TOKEN_EXPIRED = "Token expired"
    ∧ verifyFailureMessage VerifyReason.TOKEN_NOT_FOUND = "Token invalid"
    ∧ verifyFailureMessage VerifyReason.TOKEN_INACTIVE = "Invalid token"
    ∧ verifyFailureMessage VerifyReason.VERIFICATION_ERROR = "Invalid token" :=
  ⟨rfl, rfl, rfl, rfl, rfl, rfl, rfl, rfl⟩

/-- C6: the one-time secret is a pure function of the `Math.random` output
stream — six draws from the 36-character alphanumeric alphabet — so anyone
who can predict `Math.random` (a non-cryptographic PRNG) predicts the
token exactly; here the streams 0,1,2,... and the constant 35 determine
the tokens completely. -/
theorem C6_math_random_determines_token :
    generateRandomToken (fun i => Fin.ofNat i) = "ABCDEF"
    ∧ generateRandomToken (fun _ => Fin.ofNat 35) = "999999"
    ∧ tokenChars.length = 36 :=
  ⟨rfl, rfl, rfl⟩

/-- C7 counterexample: the claim says any two different (deviceId, secret)
pairs give distinct digests with overwhelming probability.  The digest is
a hash of the plain concatenation, and the two different pairs ('A','BC')
and ('AB','C') have the identical hash input, hence the identical digest
with certainty, for every hash function. -/
theorem C7_counterexample :
    tokenHashInput "A" "BC" = tokenHashInput "AB" "C"
    ∧ ¬ ((("A", "BC") : String × String) = ("AB", "C"))
    ∧ generateTokenHash shaId "A" "BC" = generateTokenHash shaId "AB" "C" :=
  ⟨rfl, by decide, rfl⟩

/-- C7 amended: the fingerprint is deterministic (a pure function of the
pair through the concatenation), and two different pairs have different
hash inputs whenever their secrets have equal length — in particular for
the fixed-length-6 secrets the system generates — so their digests differ
unless SHA-512 itself collides; pairs with different-length secrets can
share the concatenation and then collide with certainty. -/
theorem C7_fingerprint_deterministic_inj (sha : String → String)
    (d₁ s₁ d₂ s₂ : String) (hlen : s₁.length = s₂.length)
    (hne : ¬ (((d₁, s₁) : String × String) = (d₂, s₂))) :
    generateTokenHash sha d₁ s₁ = sha (tokenHashInput d₁ s₁)
    ∧ ¬ tokenHashInput d₁ s₁ = tokenHashInput d₂ s₂ := by
  refine ⟨rfl, ?_⟩
  intro h
  apply hne
  unfold tokenHashInput at h
  have hdata : d₁.data ++ s₁.data = d₂.data ++ s₂.data := by
    have hc := congrArg String.data h
    simpa [String.data_append] using hc
  have hlen' : s₁.data.length = s₂.data.length := hlen
  obtain ⟨h₁, h₂⟩ := List.append_inj' hdata hlen'
  have hd : d₁ = d₂ := by cases d₁; cases d₂; exact congrArg String.mk h₁
  have hs : s₁ = s₂ := by cases s₁; cases s₂; exact congrArg String.mk h₂
  rw [hd, hs]

/-- Witness for the amended C7: equal-length secrets BC and BD on the same
device give distinct hash inputs. -/
theorem C7_fingerprint_deterministic_inj_witness :
    ("BC" : String).length = ("BD" : String).length
    ∧ ¬ ((("A", "BC") : String × String) = ("A", "BD"))
    ∧ (generateTokenHash shaId "A" "BC" = shaId (tokenHashInput "A" "BC")
      ∧ ¬ tokenHashInput "A" "BC" = tokenHashInput "A" "BD") :=
  ⟨rfl, by decide,
    C7_fingerprint_deterministic_inj shaId "A" "BC" "A" "BD" rfl (by decide)⟩

/-- C8 counterexample: the claim says delete returns false when no token
with the identifier exists.  On an empty store — where no token exists at
all — `deleteToken` still returns true, because the Firebase `remove()`
resolves whether or not the child exists. -/
theorem C8_counterexample :
    deleteToken (Except.ok []) "missing" = (true, Except.ok []) :=
  rfl

/-- C8 amended: delete removes any token carrying the identifier
regardless of status, keeps the others, and returns true whenever the
store operation succeeds — even when no such token exists; it returns
false only when the store call fails. -/
theorem C8_delete_semantics (ts : List Token) (tokenId : String) :
    (deleteToken (Except.ok ts) tokenId).1 = true
    ∧ (∀ t, t ∈ getAllTokens (deleteToken (Except.ok ts) tokenId).2 →
        ¬ t.id = tokenId)
    ∧ (∀ t, t ∈ ts → ¬ t.id = tokenId →
        t ∈ getAllTokens (deleteToken (Except.ok ts) tokenId).2)
    ∧ (deleteToken (Except.error ()) tokenId).1 = false := by
  refine ⟨rfl, ?_, ?_, rfl⟩
  · intro t ht
    simp only [deleteToken, getAllTokens, List.mem_filter,
      decide_eq_true_eq] at ht
    exact ht.2
  · intro t ht hne
    simp only [deleteToken, getAllTokens, List.mem_filter, decide_eq_true_eq]
    exact ⟨ht, hne⟩

/-- Witness for the amended C8: deleting k1 from a two-token store
succeeds, removes exactly k1, and a failing store yields false. -/
theorem C8_delete_semantics_witness :
    (deleteToken (Except.ok [tokActive, tokUsed]) "k1").1 = true
    ∧ (∀ t, t ∈ getAllTokens (deleteToken
        (Except.ok [tokActive, tokUsed]) "k1").2 → ¬ t.id = "k1")
    ∧ (∀ t, t ∈ [tokActive, tokUsed] → ¬ t.id = "k1" →
        t ∈ getAllTokens (deleteToken (Except.ok [tokActive, tokUsed]) "k1").2)
    ∧ (deleteToken (Except.error ()) "k1").1 = false :=
  C8_delete_semantics [tokActive, tokUsed] "k1"

/-- C9 counterexample: the claim says non-sweep store failures surface to
the caller as errors.  With the store unreachable, `verifyToken` returns a
normal-looking invalid outcome and `Token.find` returns a normal empty
list. -/
theorem C9_counterexample :
    (verifyTokenCatch shaId (Except.error ()) "dev1" "SECRET" 500).1
      = VerifyOutcome.invalid VerifyReason.VERIFICATION_ERROR
    ∧ tokenFind (Except.error ()) none = []
    ∧ tokenFind (Except.error ()) (some TokenStatus.ACTIVE) = [] :=
  ⟨rfl, rfl, rfl⟩

/-- C9 amended: the sweeps swallow store errors and return zero-effect as
the claim says, but so do the non-sweep read paths — verify collapses a
store failure into the generic VERIFICATION_ERROR invalid outcome and the
list path returns an empty list; among the token operations only
`createToken` rethrows the store error. -/
theorem C9_store_errors_swallowed (sha : String → String) (d p : String)
    (now : Nat) (q : Option TokenStatus) (dev : String) (es : Nat)
    (rand : Nat → Fin 36) (nid : String) :
    (verifyTokenCatch sha (Except.error ()) d p now).1
      = VerifyOutcome.invalid VerifyReason.VERIFICATION_ERROR
    ∧ tokenFind (Except.error ()) q = []
    ∧ (cleanupExpiredTokens (Except.error ()) now).1 = 0
    ∧ createToken sha (Except.error ()) dev es rand nid now = Except.error () := by
  refine ⟨rfl, ?_, rfl, rfl⟩
  cases q <;> rfl

/-- A session still stored as ACTIVE whose expiry has already passed. -/
def sesStale : Session :=
  { id := "s3", username := "carol", device_id := "dev3", ip := "10.0.0.3",
    started_at := 200, expires_at := 500, status := SessionStatus.ACTIVE }

/-- Insertion into the descending-by-`started_at` sort neither adds nor
drops elements. -/
theorem mem_insertByStartedDesc (s a : Session) (l : List Session) :
    a ∈ insertByStartedDesc s l ↔ a = s ∨ a ∈ l := by
  induction l with
  | nil => simp [insertByStartedDesc]
  | cons t ts ih =>
    by_cases h : t.started_at ≤ s.started_at
    · simp [insertByStartedDesc, h]
    · simp [insertByStartedDesc, h, ih]
      tauto

/-- The descending sort neither adds nor drops elements. -/
theorem mem_sortByStartedDesc (a : Session) (l : List Session) :
    a ∈ sortByStartedDesc l ↔ a ∈ l := by
  induction l with
  | nil => simp [sortByStartedDesc]
  | cons t ts ih => simp [sortByStartedDesc, mem_insertByStartedDesc, ih]

/-- Insertion preserves the descending-by-`started_at` ordering. -/
theorem pairwise_insertByStartedDesc (s : Session) (l : List Session)
    (hl : l.Pairwise (fun a b => b.started_at ≤ a.started_at)) :
    (insertByStartedDesc s l).Pairwise
      (fun a b => b.started_at ≤ a.started_at) := by
  induction l with
  | nil => simp [insertByStartedDesc]
  | cons t ts ih =>
    rcases List.pairwise_cons.mp hl with ⟨hts, hp⟩
    by_cases h : t.started_at ≤ s.started_at
    · simp only [insertByStartedDesc, if_pos h]
      refine List.pairwise_cons.mpr ⟨?_, hl⟩
      intro b hb
      rcases List.mem_cons.mp hb with rfl | hb'
      · exact h
      · exact le_trans (hts b hb') h
    · simp only [insertByStartedDesc, if_neg h]
      refine List.pairwise_cons.mpr ⟨?_, ih hp⟩
      intro b hb
      rcases (mem_insertByStartedDesc s b ts).mp hb with rfl | hb'
      · exact le_of_not_le h
      · exact hts b hb'

/-- The sort produces a descending-by-`started_at` list. -/
theorem pairwise_sortByStartedDesc (l : List Session) :
    (sortByStartedDesc l).Pairwise (fun a b => b.started_at ≤ a.started_at) := by
  induction l with
  | nil => simp [sortByStartedDesc]
  | cons t ts ih => exact pairwise_insertByStartedDesc t _ ih

/-- C10: `getActiveSessions` returns exactly the stored sessions that are
ACTIVE with `expires_at` strictly later than now, in descending
`started_at` order, and leaves the store — in particular the persisted
status of a stale still-ACTIVE session — unchanged. -/
theorem C10_getActiveSessions_spec (store : List Session) (now : Nat) :
    (∀ s : Session, s ∈ (getActiveSessions store now).1 ↔
      (s ∈ store ∧ s.status = SessionStatus.ACTIVE ∧ now < s.expires_at))
    ∧ ((getActiveSessions store now).1).Pairwise
        (fun a b => b.started_at ≤ a.started_at)
    ∧ (getActiveSessions store now).2 = store := by
  refine ⟨?_, pairwise_sortByStartedDesc _, rfl⟩
  intro s
  simp only [getActiveSessions, mem_sortByStartedDesc, List.mem_filter,
    Bool.and_eq_true, beq_iff_eq, decide_eq_true_eq]

/-- Witness for C10: in a store holding a live ACTIVE session, a stale
still-ACTIVE session and a force-logged-out session, the instantiated
specification holds — so the stale and terminated sessions are omitted
while the store (including the stale session's ACTIVE status) persists. -/
theorem C10_getActiveSessions_spec_witness :
    ((∀ s : Session, s ∈ (getActiveSessions [sesActive, sesStale, sesForced] 800).1 ↔
      (s ∈ [sesActive, sesStale, sesForced] ∧ s.status = SessionStatus.ACTIVE
        ∧ 800 < s.expires_at))
    ∧ ((getActiveSessions [sesActive, sesStale, sesForced] 800).1).Pairwise
        (fun a b => b.started_at ≤ a.started_at)
    ∧ (getActiveSessions [sesActive, sesStale, sesForced] 800).2
        = [sesActive, sesStale, sesForced])
    ∧ (getActiveSessions [sesActive, sesStale, sesForced] 800).1 = [sesActive]
    ∧ sesStale.status = SessionStatus.ACTIVE :=
  ⟨C10_getActiveSessions_spec [sesActive, sesStale, sesForced] 800,
    by decide, rfl⟩

end VAuth
